/-
Verification of the blender-auto-render repository: a shallow embedding of
`pipeline.py` (the launcher that builds and supervises a headless Blender
command) and `scene.py` (the procedural scene generator), with theorems
settling the specification's testable properties.

Modelling conventions:
* Keyframe insertion is modelled as the trace of `keyframe_insert` calls:
  a list of (frame, value) events per animated property, in source order.
* Frame numbers are integers (Python ints; `start_frame - 1` can be -1).
* World-space positions are rational triples (SPACING = 1.5 = 3/2 exactly).
* Rotation values are rationals measured in units of π radians, so the
  source's `2 * math.pi` is the rational 2 (= 360 degrees).
* `random.randint` draws are modelled as explicit oracle inputs; the
  rejection-sampling `while start_coord == end_coord` loop is modelled over
  an explicit list of successive candidate draws (`sampleEnd`).
* The subprocess boundary is modelled by an environment record saying
  whether the input script exists and how the spawned process would behave.
-/
import Mathlib

namespace BlenderAutoRender

/-! ## Embedding of `pipeline.py` -/

/-- `total_frames = args.fps * args.duration` (pipeline.py line 79). -/
def total_frames (fps duration : ℤ) : ℤ := fps * duration

/-- The codec → quality-token mapping (pipeline.py lines 82–87):
`crf_value = 'MEDIUM'` when the codec is `'AV1'`, else the raw `args.crf`. -/
def crf_value (codec crf : String) : String :=
  if codec = "AV1" then "MEDIUM" else crf

/-- The `--python-expr` string injecting the scene end frame
(pipeline.py line 101). -/
def frameEndExpr (tf : ℤ) : String :=
  "import bpy; bpy.context.scene.frame_end = " ++ toString tf

/-- The `--python-expr` string injecting the quality token
(pipeline.py line 104). -/
def crfExpr (tok : String) : String :=
  "import bpy; bpy.context.scene.render.ffmpeg.constant_rate_factor = \x27"
    ++ tok ++ "\x27"

/-- The full Blender command list built by `main` (pipeline.py lines 90–107). -/
def mkCommand (blender_path input_script render_output_path : String)
    (width height fps duration : ℤ) (container codec crf : String) :
    List String :=
  [blender_path,
   "--background",
   "--python", input_script,
   "--render-format", "FFMPEG",
   "--render-output", render_output_path,
   "--python-expr",
     "import bpy; bpy.context.scene.render.resolution_x = " ++ toString width,
   "--python-expr",
     "import bpy; bpy.context.scene.render.resolution_y = " ++ toString height,
   "--python-expr",
     "import bpy; bpy.context.scene.render.fps = " ++ toString fps,
   "--python-expr", frameEndExpr (total_frames fps duration),
   "--python-expr",
     "import bpy; bpy.context.scene.render.ffmpeg.format = \x27"
       ++ container ++ "\x27",
   "--python-expr",
     "import bpy; bpy.context.scene.render.ffmpeg.codec = \x27"
       ++ codec ++ "\x27",
   "--python-expr", crfExpr (crf_value codec crf),
   "--render-anim"]

/-- Behaviour of the external process, were it to be spawned:
the executable may be missing (`FileNotFoundError` from `subprocess.run`),
or the process runs and exits with a status code. -/
inductive RunOutcome where
  | execMissing : RunOutcome
  | exited : ℕ → RunOutcome
deriving DecidableEq

/-- Environment seen by the launcher: whether `args.input_script` exists on
disk, and what happens if the external process is invoked. -/
structure LaunchConfig where
  inputScriptExists : Bool
  run : RunOutcome
deriving DecidableEq

/-- Observable trace of one `main()` call: how many times `subprocess.run`
was invoked, the launcher's exit code (0 = fell off the end of `main`),
and which of the success / error messages were printed. -/
structure LaunchTrace where
  invocations : ℕ
  exitCode : ℕ
  printedSuccess : Bool
  printedError : Bool
deriving DecidableEq

/-- The control flow of `main` after argument parsing (pipeline.py
lines 68–125): a missing input script exits 1 before any spawn; then
`subprocess.run(command, check=True)` is called exactly once, and
`FileNotFoundError` / `CalledProcessError` each print a diagnostic and
exit 1, while a zero exit prints the success message. -/
def runLauncher (cfg : LaunchConfig) : LaunchTrace :=
  if cfg.inputScriptExists = false then
    { invocations := 0, exitCode := 1,
      printedSuccess := false, printedError := true }
  else
    match cfg.run with
    | RunOutcome.execMissing =>
        { invocations := 1, exitCode := 1,
          printedSuccess := false, printedError := true }
    | RunOutcome.exited 0 =>
        { invocations := 1, exitCode := 0,
          printedSuccess := true, printedError := false }
    | RunOutcome.exited (_ + 1) =>
        { invocations := 1, exitCode := 1,
          printedSuccess := false, printedError := true }

/-! ## Embedding of `scene.py` -/

/-- `SPACING = 1.5` (scene.py line 21), exact as a rational. -/
def SPACING : ℚ := 3 / 2

/-- `PACKET_TRAVEL_TIME = 10` (scene.py line 24). -/
def PACKET_TRAVEL_TIME : ℤ := 10

/-- `GRID_SIZE_X = 16` (scene.py line 16). -/
def GRID_SIZE_X : ℕ := 16

/-- `GRID_SIZE_Y = 16` (scene.py line 17). -/
def GRID_SIZE_Y : ℕ := 16

/-- `GRID_SIZE_Z = 16` (scene.py line 18). -/
def GRID_SIZE_Z : ℕ := 16

/-- `NUM_PACKETS = 30` (scene.py line 23). -/
def NUM_PACKETS : ℕ := 30

/-- `get_core_position(x, y, z) = Vector((x*SPACING, y*SPACING, z*SPACING))`
(scene.py lines 40–41). -/
def get_core_position (x y z : ℚ) : ℚ × ℚ × ℚ :=
  (x * SPACING, y * SPACING, z * SPACING)

/-- An integer grid coordinate (the components of the random
`start_coord` / `end_coord` triples drawn in the `__main__` packet loop). -/
structure Coord where
  x : ℤ
  y : ℤ
  z : ℤ
deriving DecidableEq

/-! ### Primitive builder and the scene registry -/

/-- A mesh datablock: its name and which bmesh primitive built it. -/
structure Mesh where
  name : String
  geom : String
deriving DecidableEq

/-- An object datablock: its name and the name of the mesh it references. -/
structure Obj where
  name : String
  mesh : String
deriving DecidableEq

/-- The slice of `bpy.data` state that `create_primitive` mutates: created
meshes, created objects, and (collection, object) links. -/
structure SceneRegistry where
  meshes : List Mesh
  objects : List Obj
  links : List (String × String)
deriving DecidableEq

/-- `create_primitive` (scene.py lines 59–73): for `'CUBE'` and `'SPHERE'`
it creates a mesh named `object_name + "_Mesh"`, an object referencing it,
links the object into the collection and returns it; any other
`primitive_type` frees the scratch bmesh and raises `ValueError` before
touching `bpy.data`, so the registry is unchanged. -/
def create_primitive (reg : SceneRegistry)
    (object_name collection primitive_type : String) :
    Except String (SceneRegistry × Obj) :=
  if primitive_type = "CUBE" ∨ primitive_type = "SPHERE" then
    let mesh : Mesh := { name := object_name ++ "_Mesh", geom := primitive_type }
    let obj : Obj := { name := object_name, mesh := mesh.name }
    Except.ok
      ({ meshes := reg.meshes ++ [mesh],
         objects := reg.objects ++ [obj],
         links := reg.links ++ [(collection, object_name)] }, obj)
  else
    Except.error ("Unsupported primitive type: " ++ primitive_type)

/-! ### Grid assembly -/

/-- Whether a grid instance is a core cube or a router sphere. -/
inductive ObjKind where
  | core : ObjKind
  | router : ObjKind
deriving DecidableEq

/-- One instanced object of the grid: kind, name, and world location. -/
structure GridInst where
  kind : ObjKind
  name : String
  location : ℚ × ℚ × ℚ
deriving DecidableEq

/-- The body of the `create_grid` triple loop (scene.py lines 94–100): one
core instance and one router instance, both at `get_core_position x y z`,
linked in that order. -/
def gridCell (x y z : ℕ) : List GridInst :=
  [{ kind := ObjKind.core,
     name := "Core_" ++ toString x ++ "_" ++ toString y ++ "_" ++ toString z,
     location := get_core_position (x : ℚ) (y : ℚ) (z : ℚ) },
   { kind := ObjKind.router,
     name := "Router_" ++ toString x ++ "_" ++ toString y ++ "_" ++ toString z,
     location := get_core_position (x : ℚ) (y : ℚ) (z : ℚ) }]

/-- `create_grid` (scene.py lines 88–100), parameterised by the three grid
extents (the source fixes them to the `GRID_SIZE_*` constants): for every
`z < nz`, `y < ny`, `x < nx` it links one core instance and one router
instance, both located at `get_core_position x y z`. -/
def create_grid (nx ny nz : ℕ) : List GridInst :=
  (List.range nz).flatMap (fun z =>
    (List.range ny).flatMap (fun y =>
      (List.range nx).flatMap (fun x => gridCell x y z)))

/-! ### Packet animation -/

/-- One inserted `location` keyframe: frame number and location value. -/
structure LocKey where
  frame : ℤ
  pos : ℚ × ℚ × ℚ
deriving DecidableEq

/-- The four `location` keyframes inserted by `animate_packet_route`
(scene.py lines 157–172): start, after the X leg, after the Y leg, after
the Z leg, each leg lasting `|Δaxis| * PACKET_TRAVEL_TIME` frames. -/
def animate_packet_route_locs (start_frame : ℤ) (s e : Coord) :
    List LocKey :=
  let dist_x := |e.x - s.x|
  let dist_y := |e.y - s.y|
  let dist_z := |e.z - s.z|
  let frame_after_x := start_frame + dist_x * PACKET_TRAVEL_TIME
  let frame_after_y := frame_after_x + dist_y * PACKET_TRAVEL_TIME
  let frame_after_z := frame_after_y + dist_z * PACKET_TRAVEL_TIME
  [{ frame := start_frame,
     pos := get_core_position (s.x : ℚ) (s.y : ℚ) (s.z : ℚ) },
   { frame := frame_after_x,
     pos := get_core_position (e.x : ℚ) (s.y : ℚ) (s.z : ℚ) },
   { frame := frame_after_y,
     pos := get_core_position (e.x : ℚ) (e.y : ℚ) (s.z : ℚ) },
   { frame := frame_after_z,
     pos := get_core_position (e.x : ℚ) (e.y : ℚ) (e.z : ℚ) }]

/-- The frame numbers of the four route keyframes, in insertion order. -/
def routeFrames (start_frame : ℤ) (s e : Coord) : List ℤ :=
  (animate_packet_route_locs start_frame s e).map LocKey.frame

/-- The trailing hide keyframes of `animate_packet_route`
(scene.py lines 173–176): `hide_viewport` and `hide_render` set to `True`
at `frame_after_z + 1`. -/
def animate_packet_route_hides (start_frame : ℤ) (s e : Coord) :
    List (ℤ × Bool) :=
  let frame_after_z := start_frame
    + (|e.x - s.x| + |e.y - s.y| + |e.z - s.z|) * PACKET_TRAVEL_TIME
  [(frame_after_z + 1, true), (frame_after_z + 1, true)]

/-- The visibility keyframes inserted by `create_packet`
(scene.py lines 147–154): hidden (`True`) on both `hide_viewport` and
`hide_render` at `start_frame - 1`, visible (`False`) on both at
`start_frame`. -/
def create_packet_hides (start_frame : ℤ) : List (ℤ × Bool) :=
  [(start_frame - 1, true), (start_frame - 1, true),
   (start_frame, false), (start_frame, false)]

/-- `max_start_frame = max(0, int(anim_end_frame) - 500)`
(scene.py line 218). -/
def max_start_frame (anim_end_frame : ℤ) : ℤ := max 0 (anim_end_frame - 500)

/-- The packet start-frame selection (scene.py line 219):
`random.randint(0, max_start_frame) if max_start_frame > 0 else 0`, with
the `randint` draw supplied as the oracle `r`. -/
def pickStartFrame (anim_end_frame r : ℤ) : ℤ :=
  if max_start_frame anim_end_frame > 0 then r else 0

/-- The rejection sampling of `end_coord` (scene.py lines 214–216):
`candidates` is the stream of successive `randint` coordinate draws; the
`while start_coord == end_coord` loop keeps drawing until the draw differs
from `start`, and `none` means the supplied stream was exhausted first. -/
def sampleEnd (start : Coord) : List Coord → Option Coord
  | [] => none
  | c :: rest => if c = start then sampleEnd start rest else some c

/-- Every keyframe frame number inserted for one packet, in source order:
the `create_packet` visibility keyframes, the four route location
keyframes, and the final hide keyframes. -/
def packetAllFrames (start_frame : ℤ) (s e : Coord) : List ℤ :=
  (create_packet_hides start_frame).map Prod.fst
    ++ routeFrames start_frame s e
    ++ (animate_packet_route_hides start_frame s e).map Prod.fst

/-! ### Camera pivot rotation -/

/-- Keyframe interpolation modes (Blender defaults new keyframes to
BEZIER; the script patches the curve to LINEAR). -/
inductive Interp where
  | bezier : Interp
  | linear : Interp
deriving DecidableEq

/-- One keyframe point on the pivot's vertical-axis rotation f-curve:
frame, rotation value in units of π radians, interpolation mode. -/
structure RotKey where
  frame : ℤ
  value : ℚ
  interp : Interp
deriving DecidableEq

/-- The two `rotation_euler` keyframes inserted on the pivot
(scene.py lines 243–246), restricted to the vertical (index 2) component:
rotation 0 at frame 0 and `2π` (value 2 in π-units) at `anim_end_frame`,
each with the host's default BEZIER interpolation. -/
def pivot_rotation_inserts (anim_end_frame : ℤ) : List RotKey :=
  [{ frame := 0, value := 0, interp := Interp.bezier },
   { frame := anim_end_frame, value := 2, interp := Interp.bezier }]

/-- The interpolation patch (scene.py lines 247–251): every keyframe point
on the found `rotation_euler` index-2 f-curve is set to LINEAR. (The guards
hold: the keyframes were just inserted, so the action and f-curve exist.) -/
def forceLinear (curve : List RotKey) : List RotKey :=
  curve.map (fun k => { k with interp := Interp.linear })

/-- The pivot's vertical-rotation curve after scene generation. -/
def pivotCurve (anim_end_frame : ℤ) : List RotKey :=
  forceLinear (pivot_rotation_inserts anim_end_frame)

/-- The frame numbers of the pivot rotation keyframes. -/
def pivotFrames (anim_end_frame : ℤ) : List ℤ :=
  (pivotCurve anim_end_frame).map RotKey.frame

/-! ## Helper lemmas -/

/-- The rejection-sampling loop only ever returns a coordinate different
from `start`. -/
lemma sampleEnd_ne (start : Coord) :
    ∀ (l : List Coord) (e : Coord), sampleEnd start l = some e → e ≠ start := by
  intro l
  induction l with
  | nil => intro e he; simp [sampleEnd] at he
  | cons c rest ih =>
      intro e he
      by_cases hc : c = start
      · rw [sampleEnd, if_pos hc] at he
        exact ih e he
      · rw [sampleEnd, if_neg hc] at he
        cases he
        exact hc

/-- Counting over a `flatMap` whose pieces all have the same count. -/
lemma countP_flatMap_const {α β : Type} (p : β → Bool) (f : α → List β)
    (c : ℕ) :
    ∀ l : List α, (∀ a ∈ l, (f a).countP p = c) →
      (l.flatMap f).countP p = l.length * c := by
  intro l
  induction l with
  | nil => intro; simp
  | cons a t ih =>
      intro h
      rw [List.flatMap_cons, List.countP_append,
        h a (List.mem_cons_self a t),
        ih (fun b hb => h b (List.mem_cons_of_mem a hb)),
        List.length_cons]
      ring

/-- Each grid cell contributes exactly one instance of each kind. -/
lemma gridCell_countP (k : ObjKind) (x y z : ℕ) :
    (gridCell x y z).countP (fun i => i.kind == k) = 1 := by
  cases k <;> rfl

/-- The grid holds `nx * ny * nz` instances of each kind. -/
lemma create_grid_countP (k : ObjKind) (nx ny nz : ℕ) :
    (create_grid nx ny nz).countP (fun i => i.kind == k) = nx * ny * nz := by
  have h2 : ∀ z y : ℕ,
      ((List.range nx).flatMap fun x => gridCell x y z).countP
        (fun i => i.kind == k) = nx * 1 := by
    intro z y
    rw [countP_flatMap_const _ _ 1 _ (fun x _ => gridCell_countP k x y z),
      List.length_range]
  have h3 : ∀ z : ℕ,
      ((List.range ny).flatMap fun y =>
        (List.range nx).flatMap fun x => gridCell x y z).countP
        (fun i => i.kind == k) = ny * (nx * 1) := by
    intro z
    rw [countP_flatMap_const _ _ (nx * 1) _ (fun y _ => h2 z y),
      List.length_range]
  unfold create_grid
  rw [countP_flatMap_const _ _ (ny * (nx * 1)) _ (fun z _ => h3 z),
    List.length_range]
  ring

/-- Both instances of any in-range cell are members of the grid. -/
lemma create_grid_mem (nx ny nz x y z : ℕ)
    (hx : x < nx) (hy : y < ny) (hz : z < nz) :
    ∀ i ∈ gridCell x y z, i ∈ create_grid nx ny nz := by
  intro i hi
  unfold create_grid
  refine List.mem_flatMap.mpr ⟨z, List.mem_range.mpr hz, ?_⟩
  refine List.mem_flatMap.mpr ⟨y, List.mem_range.mpr hy, ?_⟩
  exact List.mem_flatMap.mpr ⟨x, List.mem_range.mpr hx, hi⟩

/-! ## Claim theorems -/

/-- C2: the quality token injected into the command (the
`constant_rate_factor` python-expr, element 21 of the command list) is the
literal `MEDIUM` when the codec equals `AV1`, and exactly the user-supplied
crf string, unchanged, for any other codec. -/
theorem quality_token_mapping (bp scr out : String) (w h fps dur : ℤ)
    (container codec crf : String) :
    (codec = "AV1" →
      (mkCommand bp scr out w h fps dur container codec crf)[21]? =
        some (crfExpr "MEDIUM")) ∧
    (codec ≠ "AV1" →
      (mkCommand bp scr out w h fps dur container codec crf)[21]? =
        some (crfExpr crf)) := by
  constructor <;> intro hc <;> simp [mkCommand, crf_value, hc]

/-- Witness for C2: both branches at concrete codecs. -/
theorem quality_token_mapping_witness :
    (mkCommand "blender" "scene.py" "out.mkv" 3840 2160 60 60
      "MKV" "AV1" "20")[21]? = some (crfExpr "MEDIUM") ∧
    (mkCommand "blender" "scene.py" "out.mkv" 3840 2160 60 60
      "MKV" "H264" "20")[21]? = some (crfExpr "20") :=
  ⟨(quality_token_mapping "blender" "scene.py" "out.mkv" 3840 2160 60 60
      "MKV" "AV1" "20").1 rfl,
   (quality_token_mapping "blender" "scene.py" "out.mkv" 3840 2160 60 60
      "MKV" "H264" "20").2 (by decide)⟩

/-- C5: the pivot's vertical rotation is keyframed at exactly two frames —
frame 0 with rotation 0 and frame `total_frames` with rotation 2π (value 2
in π-units) — both forced to LINEAR interpolation; and for
`--fps 30 --duration 2` the keyframes are exactly (0, 0°) and (60, 360°). -/
theorem pivot_orbit_keyframes (fps duration : ℤ) :
    pivotCurve (total_frames fps duration) =
      [{ frame := 0, value := 0, interp := Interp.linear },
       { frame := fps * duration, value := 2, interp := Interp.linear }] ∧
    total_frames 30 2 = 60 ∧
    pivotCurve (total_frames 30 2) =
      [{ frame := 0, value := 0, interp := Interp.linear },
       { frame := 60, value := 2, interp := Interp.linear }] :=
  ⟨rfl, rfl, rfl⟩

/-- C6: when the input script does not exist, the launcher exits with
code 1 and `subprocess.run` is never invoked. -/
theorem missing_script_no_invoke (cfg : LaunchConfig)
    (h : cfg.inputScriptExists = false) :
    (runLauncher cfg).exitCode = 1 ∧ (runLauncher cfg).invocations = 0 := by
  simp [runLauncher, h]

/-- Witness for C6. -/
theorem missing_script_no_invoke_witness :
    (LaunchConfig.mk false (RunOutcome.exited 0)).inputScriptExists = false ∧
    (runLauncher (LaunchConfig.mk false (RunOutcome.exited 0))).exitCode = 1 ∧
    (runLauncher (LaunchConfig.mk false (RunOutcome.exited 0))).invocations
      = 0 :=
  ⟨rfl, missing_script_no_invoke (LaunchConfig.mk false (RunOutcome.exited 0))
    rfl⟩

/-- C7: with the input script present, a missing executable or a non-zero
external exit makes the launcher print the failure diagnostic, not print
the success message, invoke the process exactly once (no retry), and exit
with the non-zero code 1. -/
theorem external_failure_exits (cfg : LaunchConfig)
    (hs : cfg.inputScriptExists = true)
    (hf : cfg.run = RunOutcome.execMissing ∨
      ∃ k, cfg.run = RunOutcome.exited (k + 1)) :
    (runLauncher cfg).exitCode = 1 ∧
    (runLauncher cfg).printedError = true ∧
    (runLauncher cfg).printedSuccess = false ∧
    (runLauncher cfg).invocations = 1 := by
  rcases hf with hf | ⟨k, hf⟩ <;> simp [runLauncher, hs, hf]

/-- Witness for C7: a process exiting with status 2. -/
theorem external_failure_exits_witness :
    (LaunchConfig.mk true (RunOutcome.exited 2)).inputScriptExists = true ∧
    (runLauncher (LaunchConfig.mk true (RunOutcome.exited 2))).exitCode = 1 ∧
    (runLauncher (LaunchConfig.mk true (RunOutcome.exited 2))).printedError
      = true ∧
    (runLauncher (LaunchConfig.mk true (RunOutcome.exited 2))).printedSuccess
      = false ∧
    (runLauncher (LaunchConfig.mk true (RunOutcome.exited 2))).invocations
      = 1 := by
  refine ⟨rfl, ?_⟩
  have h := external_failure_exits (LaunchConfig.mk true (RunOutcome.exited 2))
    rfl (Or.inr ⟨1, rfl⟩)
  exact ⟨h.1, h.2.1, h.2.2.1, h.2.2.2⟩

/-- C8: `create_primitive` fails with the unsupported-kind error for every
kind other than CUBE and SPHERE, performing no registry mutation; for CUBE
and SPHERE it adds one new mesh, one new object referencing that mesh,
links the object into the given collection, and returns that object. -/
theorem create_primitive_contract (reg : SceneRegistry)
    (nm coll ty : String) :
    (¬(ty = "CUBE" ∨ ty = "SPHERE") →
      create_primitive reg nm coll ty =
        Except.error ("Unsupported primitive type: " ++ ty)) ∧
    (ty = "CUBE" ∨ ty = "SPHERE" →
      create_primitive reg nm coll ty =
        Except.ok
          ({ meshes := reg.meshes ++ [{ name := nm ++ "_Mesh", geom := ty }],
             objects := reg.objects ++ [{ name := nm, mesh := nm ++ "_Mesh" }],
             links := reg.links ++ [(coll, nm)] },
           { name := nm, mesh := nm ++ "_Mesh" })) := by
  constructor <;> intro h <;> simp [create_primitive, h]

/-- Witness for C8: CONE is rejected with the registry untouched, CUBE is
created and linked. -/
theorem create_primitive_contract_witness :
    create_primitive (SceneRegistry.mk [] [] []) "Base_ForthCore"
      "BaseModels" "CONE" =
      Except.error ("Unsupported primitive type: " ++ "CONE") ∧
    create_primitive (SceneRegistry.mk [] [] []) "Base_ForthCore"
      "BaseModels" "CUBE" =
      Except.ok
        ({ meshes := [{ name := "Base_ForthCore" ++ "_Mesh", geom := "CUBE" }],
           objects := [{ name := "Base_ForthCore",
                         mesh := "Base_ForthCore" ++ "_Mesh" }],
           links := [("BaseModels", "Base_ForthCore")] },
         { name := "Base_ForthCore", mesh := "Base_ForthCore" ++ "_Mesh" }) :=
  ⟨(create_primitive_contract (SceneRegistry.mk [] [] []) "Base_ForthCore"
      "BaseModels" "CONE").1 (by decide),
   (create_primitive_contract (SceneRegistry.mk [] [] []) "Base_ForthCore"
      "BaseModels" "CUBE").2 (Or.inl rfl)⟩

/-- C3: for an end coordinate produced by the rejection-sampling loop (so
never equal to the start), `animate_packet_route` inserts exactly 4
location keyframes — start, after-X, after-Y, after-Z — whose frames step
from the start frame by `|Δx| * PACKET_TRAVEL_TIME`, then
`|Δy| * PACKET_TRAVEL_TIME`, then `|Δz| * PACKET_TRAVEL_TIME`. -/
theorem packet_route_keyframes (start_frame : ℤ) (s : Coord)
    (candidates : List Coord) (e : Coord)
    (h : sampleEnd s candidates = some e) :
    e ≠ s ∧
    (animate_packet_route_locs start_frame s e).length = 4 ∧
    routeFrames start_frame s e =
      [start_frame,
       start_frame + |e.x - s.x| * PACKET_TRAVEL_TIME,
       start_frame + |e.x - s.x| * PACKET_TRAVEL_TIME
         + |e.y - s.y| * PACKET_TRAVEL_TIME,
       start_frame + |e.x - s.x| * PACKET_TRAVEL_TIME
         + |e.y - s.y| * PACKET_TRAVEL_TIME
         + |e.z - s.z| * PACKET_TRAVEL_TIME] ∧
    (animate_packet_route_locs start_frame s e).map LocKey.pos =
      [get_core_position (s.x : ℚ) (s.y : ℚ) (s.z : ℚ),
       get_core_position (e.x : ℚ) (s.y : ℚ) (s.z : ℚ),
       get_core_position (e.x : ℚ) (e.y : ℚ) (s.z : ℚ),
       get_core_position (e.x : ℚ) (e.y : ℚ) (e.z : ℚ)] :=
  ⟨sampleEnd_ne s candidates e h, rfl, rfl, rfl⟩

/-- Witness for C3: the first draw collides with the start and is re-drawn. -/
theorem packet_route_keyframes_witness :
    sampleEnd (Coord.mk 0 0 0) [Coord.mk 0 0 0, Coord.mk 1 0 0] =
      some (Coord.mk 1 0 0) ∧
    (Coord.mk 1 0 0 ≠ Coord.mk 0 0 0 ∧
     (animate_packet_route_locs 5 (Coord.mk 0 0 0) (Coord.mk 1 0 0)).length
       = 4) :=
  ⟨by decide,
   (packet_route_keyframes 5 (Coord.mk 0 0 0) [Coord.mk 0 0 0, Coord.mk 1 0 0]
      (Coord.mk 1 0 0) (by decide)).1,
   (packet_route_keyframes 5 (Coord.mk 0 0 0) [Coord.mk 0 0 0, Coord.mk 1 0 0]
      (Coord.mk 1 0 0) (by decide)).2.1⟩

/-- C4: for an `N × N × N` grid, `create_grid` creates exactly `N ^ 3` core
instances and `N ^ 3` router instances, and for every in-range coordinate
`(x, y, z)` the core and the router instance are co-located at
`(x, y, z) * SPACING` (that is, at `get_core_position x y z`). -/
theorem grid_instancing (N : ℕ) :
    (create_grid N N N).countP (fun i => i.kind == ObjKind.core) = N ^ 3 ∧
    (create_grid N N N).countP (fun i => i.kind == ObjKind.router) = N ^ 3 ∧
    ∀ x y z : ℕ, x < N → y < N → z < N →
      ({ kind := ObjKind.core,
         name := "Core_" ++ toString x ++ "_" ++ toString y ++ "_"
           ++ toString z,
         location := get_core_position (x : ℚ) (y : ℚ) (z : ℚ) } : GridInst)
        ∈ create_grid N N N ∧
      ({ kind := ObjKind.router,
         name := "Router_" ++ toString x ++ "_" ++ toString y ++ "_"
           ++ toString z,
         location := get_core_position (x : ℚ) (y : ℚ) (z : ℚ) } : GridInst)
        ∈ create_grid N N N := by
  refine ⟨?_, ?_, ?_⟩
  · rw [create_grid_countP]; ring
  · rw [create_grid_countP]; ring
  · intro x y z hx hy hz
    constructor
    · exact create_grid_mem N N N x y z hx hy hz _
        (List.mem_cons_self _ _)
    · exact create_grid_mem N N N x y z hx hy hz _
        (List.mem_cons_of_mem _ (List.mem_cons_self _ _))

/-- Witness for C4: the cubic 2-grid and the cell (1, 1, 1). -/
theorem grid_instancing_witness :
    (1 : ℕ) < 2 ∧
    ({ kind := ObjKind.core,
       name := "Core_" ++ toString (1 : ℕ) ++ "_" ++ toString (1 : ℕ) ++ "_"
         ++ toString (1 : ℕ),
       location := get_core_position ((1 : ℕ) : ℚ) ((1 : ℕ) : ℚ)
         ((1 : ℕ) : ℚ) } : GridInst) ∈ create_grid 2 2 2 ∧
    ({ kind := ObjKind.router,
       name := "Router_" ++ toString (1 : ℕ) ++ "_" ++ toString (1 : ℕ) ++ "_"
         ++ toString (1 : ℕ),
       location := get_core_position ((1 : ℕ) : ℚ) ((1 : ℕ) : ℚ)
         ((1 : ℕ) : ℚ) } : GridInst) ∈ create_grid 2 2 2 :=
  ⟨by decide,
   ((grid_instancing 2).2.2 1 1 1 (by decide) (by decide) (by decide)).1,
   ((grid_instancing 2).2.2 1 1 1 (by decide) (by decide) (by decide)).2⟩

/-- C9: `create_packet` inserts the hidden keyframes at `start_frame - 1`
and the visible keyframes at `start_frame`; and whenever the scene end
frame is at most 500, the chosen start frame is forced to 0 regardless of
the random draw, so the hide keyframes land on frame -1 — outside the
`[0, total_frames]` timeline. -/
theorem packet_hide_keyframes_clamped (anim_end_frame r : ℤ)
    (h : anim_end_frame ≤ 500) :
    (∀ sf : ℤ, (create_packet_hides sf).map Prod.fst =
      [sf - 1, sf - 1, sf, sf]) ∧
    pickStartFrame anim_end_frame r = 0 ∧
    (create_packet_hides (pickStartFrame anim_end_frame r)).map Prod.fst =
      [-1, -1, 0, 0] ∧
    ¬(0 ≤ (-1 : ℤ) ∧ (-1 : ℤ) ≤ anim_end_frame) := by
  have h0 : pickStartFrame anim_end_frame r = 0 := by
    unfold pickStartFrame max_start_frame
    rw [if_neg (by omega)]
  refine ⟨fun sf => rfl, h0, ?_, by omega⟩
  rw [h0]
  rfl

/-- Witness for C9: `--fps 30 --duration 2` gives end frame 60 ≤ 500. -/
theorem packet_hide_keyframes_clamped_witness :
    total_frames 30 2 ≤ 500 ∧
    pickStartFrame (total_frames 30 2) 7 = 0 ∧
    (create_packet_hides (pickStartFrame (total_frames 30 2) 7)).map Prod.fst
      = [-1, -1, 0, 0] := by
  have h := packet_hide_keyframes_clamped (total_frames 30 2) 7 (by decide)
  exact ⟨by decide, h.2.1, h.2.2.1⟩

/-- C10: the four route keyframe frames are non-decreasing; each step is
strict exactly when the corresponding axis delta is non-zero, and when a
delta is zero the two adjacent location keyframes share a frame number. -/
theorem route_frames_monotone (sf : ℤ) (s e : Coord) :
    routeFrames sf s e =
      [sf,
       sf + |e.x - s.x| * PACKET_TRAVEL_TIME,
       sf + |e.x - s.x| * PACKET_TRAVEL_TIME
         + |e.y - s.y| * PACKET_TRAVEL_TIME,
       sf + |e.x - s.x| * PACKET_TRAVEL_TIME
         + |e.y - s.y| * PACKET_TRAVEL_TIME
         + |e.z - s.z| * PACKET_TRAVEL_TIME] ∧
    List.Chain' (· ≤ ·) (routeFrames sf s e) ∧
    (sf < sf + |e.x - s.x| * PACKET_TRAVEL_TIME ↔ e.x ≠ s.x) ∧
    (sf = sf + |e.x - s.x| * PACKET_TRAVEL_TIME ↔ e.x = s.x) ∧
    (sf + |e.x - s.x| * PACKET_TRAVEL_TIME <
        sf + |e.x - s.x| * PACKET_TRAVEL_TIME
          + |e.y - s.y| * PACKET_TRAVEL_TIME ↔ e.y ≠ s.y) ∧
    (sf + |e.x - s.x| * PACKET_TRAVEL_TIME =
        sf + |e.x - s.x| * PACKET_TRAVEL_TIME
          + |e.y - s.y| * PACKET_TRAVEL_TIME ↔ e.y = s.y) ∧
    (sf + |e.x - s.x| * PACKET_TRAVEL_TIME
        + |e.y - s.y| * PACKET_TRAVEL_TIME <
        sf + |e.x - s.x| * PACKET_TRAVEL_TIME
          + |e.y - s.y| * PACKET_TRAVEL_TIME
          + |e.z - s.z| * PACKET_TRAVEL_TIME ↔ e.z ≠ s.z) ∧
    (sf + |e.x - s.x| * PACKET_TRAVEL_TIME
        + |e.y - s.y| * PACKET_TRAVEL_TIME =
        sf + |e.x - s.x| * PACKET_TRAVEL_TIME
          + |e.y - s.y| * PACKET_TRAVEL_TIME
          + |e.z - s.z| * PACKET_TRAVEL_TIME ↔ e.z = s.z) := by
  have hxa : 0 ≤ |e.x - s.x| := abs_nonneg _
  have hya : 0 ≤ |e.y - s.y| := abs_nonneg _
  have hza : 0 ≤ |e.z - s.z| := abs_nonneg _
  have hx : |e.x - s.x| = 0 ↔ e.x = s.x := by rw [abs_eq_zero, sub_eq_zero]
  have hy : |e.y - s.y| = 0 ↔ e.y = s.y := by rw [abs_eq_zero, sub_eq_zero]
  have hz : |e.z - s.z| = 0 ↔ e.z = s.z := by rw [abs_eq_zero, sub_eq_zero]
  refine ⟨rfl, ?_, ?_, ?_, ?_, ?_, ?_, ?_⟩ <;>
    simp only [routeFrames, animate_packet_route_locs, PACKET_TRAVEL_TIME,
      List.map_cons, List.map_nil, List.chain'_cons, List.chain'_singleton,
      and_true, ne_eq, ← hx, ← hy, ← hz] <;>
    omega

/-- C1 counterexample: with `--fps 30 --duration 2` we get
`total_frames = 60 ≤ 500`, so the packet loop forces `start_frame = 0`
(shown on draw 0), and for the admissible route `(0,0,0) → (15,15,15)`
(end coordinate produced by the rejection sampler) the inserted keyframes
include frame -1 (the `create_packet` hide key) and frame 451 (the final
hide key) — both outside `[0, 60]`, refuting "every keyframe lies within
the animation timeline `[0, total_frames]`". -/
theorem timeline_bounds_cex :
    total_frames 30 2 = 60 ∧
    pickStartFrame (total_frames 30 2) 0 = 0 ∧
    sampleEnd (Coord.mk 0 0 0) [Coord.mk 15 15 15] = some (Coord.mk 15 15 15) ∧
    ¬(∀ f ∈ packetAllFrames (pickStartFrame (total_frames 30 2) 0)
        (Coord.mk 0 0 0) (Coord.mk 15 15 15),
        0 ≤ f ∧ f ≤ total_frames 30 2) := by
  refine ⟨rfl, by decide, by decide, ?_⟩
  intro hall
  have h := hall (-1) (by decide)
  omega

/-- C1 amended: `total_frames = fps * duration` and it is injected into the
command as the scene end frame; the pivot rotation keyframes do lie within
`[0, total_frames]` (when that interval is non-empty), but a packet's
keyframes are only guaranteed to lie within
`[start_frame - 1, start_frame + (|Δx|+|Δy|+|Δz|) * PACKET_TRAVEL_TIME + 1]`,
an interval that can extend outside `[0, total_frames]`. -/
theorem timeline_bounds_amended (bp scr out : String) (w h fps dur : ℤ)
    (container codec crf : String) (sf : ℤ) (s e : Coord) :
    total_frames fps dur = fps * dur ∧
    frameEndExpr (total_frames fps dur) ∈
      mkCommand bp scr out w h fps dur container codec crf ∧
    (0 ≤ total_frames fps dur →
      ∀ f ∈ pivotFrames (total_frames fps dur),
        0 ≤ f ∧ f ≤ total_frames fps dur) ∧
    (∀ f ∈ packetAllFrames sf s e,
      sf - 1 ≤ f ∧
      f ≤ sf + (|e.x - s.x| + |e.y - s.y| + |e.z - s.z|)
        * PACKET_TRAVEL_TIME + 1) := by
  have hxa : 0 ≤ |e.x - s.x| := abs_nonneg _
  have hya : 0 ≤ |e.y - s.y| := abs_nonneg _
  have hza : 0 ≤ |e.z - s.z| := abs_nonneg _
  refine ⟨rfl, ?_, ?_, ?_⟩
  · simp [mkCommand]
  · intro htf f hf
    simp only [pivotFrames, pivotCurve, forceLinear, pivot_rotation_inserts,
      List.map_cons, List.map_nil, List.mem_cons,
      List.not_mem_nil, or_false] at hf
    rcases hf with hf | hf <;> omega
  · intro f hf
    simp only [packetAllFrames, create_packet_hides, routeFrames,
      animate_packet_route_locs, animate_packet_route_hides,
      PACKET_TRAVEL_TIME, List.map_cons, List.map_nil, List.cons_append,
      List.nil_append, List.mem_cons, List.not_mem_nil, or_false] at hf
    simp only [PACKET_TRAVEL_TIME]
    rcases hf with hf | hf | hf | hf | hf | hf | hf | hf | hf | hf <;> omega

/-- Witness for C1 amended: concrete launcher arguments and a concrete
packet route, with each hypothesis discharged. -/
theorem timeline_bounds_amended_witness :
    (0 ≤ total_frames 30 2) ∧
    ((0 : ℤ) ∈ pivotFrames (total_frames 30 2)) ∧
    (0 ≤ (0 : ℤ) ∧ (0 : ℤ) ≤ total_frames 30 2) ∧
    ((-1 : ℤ) ∈ packetAllFrames 0 (Coord.mk 0 0 0) (Coord.mk 1 0 0)) ∧
    ((0 : ℤ) - 1 ≤ -1 ∧
      (-1 : ℤ) ≤ 0 + (|(1 : ℤ) - 0| + |(0 : ℤ) - 0| + |(0 : ℤ) - 0|)
        * PACKET_TRAVEL_TIME + 1) :=
  ⟨by decide, by decide,
   (timeline_bounds_amended "blender" "scene.py" "out.mkv" 3840 2160 30 2
      "MKV" "AV1" "20" 0 (Coord.mk 0 0 0) (Coord.mk 1 0 0)).2.2.1
      (by decide) 0 (by decide),
   by decide,
   (timeline_bounds_amended "blender" "scene.py" "out.mkv" 3840 2160 30 2
      "MKV" "AV1" "20" 0 (Coord.mk 0 0 0) (Coord.mk 1 0 0)).2.2.2
      (-1) (by decide)⟩

end BlenderAutoRender
